import Mathlib

/-!
Shallow embedding of `src/csvlistmaker.py`, the resumable CSV-to-playlist
batch importer.  External collaborators (the platform's search, insert and
playlist-listing calls) are modelled as explicit environments: the driver
loop receives, per iteration, the search outcome and the per-attempt insert
outcomes the platform would have produced.  Sleeps, file writes and API
calls are recorded as events / explicit file-state threading so that the
observable behaviour of the source can be stated and proved.
-/

namespace CsvImport

/-- One song to import, as produced by `read_csv_songs` in the source
    (`{"query": ..., "track": ..., "artist": ...}`). -/
structure Song where
  track : String
  artist : String
  query : String
  deriving Repr, DecidableEq

/-- One entry of `failed_log`: the song dict merged with a `"Reason"` value
    (`{**song, "Reason": ...}` in the source). -/
structure FailRecord where
  song : Song
  reason : String
  deriving Repr, DecidableEq

/-- `startsWithChars pat s` : the character list `s` begins with `pat`. -/
def startsWithChars : List Char → List Char → Bool
  | [], _ => true
  | _ :: _, [] => false
  | a :: as, b :: bs => a == b && startsWithChars as bs

/-- `hasSubChars pat s` : `pat` occurs as a contiguous substring of `s`
    (Python's `pat in s` on strings). -/
def hasSubChars (pat : List Char) : List Char → Bool
  | [] => startsWithChars pat []
  | b :: bs => startsWithChars pat (b :: bs) || hasSubChars pat bs

/-- The source's quota test, `status == 403 and "quotaExceeded" in reason`. -/
def isQuota (status : Nat) (reason : String) : Bool :=
  status == 403 && hasSubChars "quotaExceeded".data reason.data

/-- Python `str.lower()` (ASCII case folding, as `Char.toLower`). -/
def lowerStr (s : String) : String := ⟨s.data.map Char.toLower⟩

/-- Python `set.add`: sets of strings are modelled as duplicate-free lists,
    insertion is a no-op on an already-present element. -/
def setAdd (x : String) (s : List String) : List String :=
  if x ∈ s then s else x :: s

/-- Outcome the platform gives to one `playlistItems().insert(...).execute()`
    attempt inside `add_video`. -/
inductive AttemptResult where
  | ok
  | httpErr (status : Nat) (reason : String)
  deriving Repr, DecidableEq

/-- The retry loop of `add_video` (source lines 110-142), starting at
    attempt index `attempt` with `fuel` loop iterations left
    (`for attempt in range(retries)`).  Returns
    `(result, attempts made, cooldown sleeps taken)`:
    success returns `True` at once; a quota-exhaustion error
    (`status == 403 and "quotaExceeded" in reason`) returns `False` at once
    with no cooldown; any other error sleeps 3 seconds and retries unless
    this was the last attempt, in which case it returns `False`. -/
def add_videoGo (att : Nat → AttemptResult) (retries attempt : Nat) :
    Nat → Bool × Nat × Nat
  | 0 => (false, 0, 0)
  | fuel + 1 =>
    match att attempt with
    | .ok => (true, 1, 0)
    | .httpErr status reason =>
      if isQuota status reason then (false, 1, 0)
      else if attempt < retries - 1 then
        let r := add_videoGo att retries (attempt + 1) fuel
        (r.1, r.2.1 + 1, r.2.2 + 1)
      else (false, 1, 0)

/-- `add_video` with the source's default `retries=3`, instrumented with the
    number of insert attempts made and cooldown sleeps taken. -/
def add_videoRun (att : Nat → AttemptResult) : Bool × Nat × Nat :=
  add_videoGo att 3 0 3

/-- The boolean result of `add_video` as the driver sees it. -/
def add_video (att : Nat → AttemptResult) : Bool :=
  (add_videoRun att).1

/-- Outcome the platform gives to one `youtube.search().list(...).execute()`
    call in the driver loop: a best-match video id, an empty `items` list, or
    a raised `HttpError` with its status and reason. -/
inductive SearchResult where
  | found (videoId : String)
  | notFound
  | httpErr (status : Nat) (reason : String)
  deriving Repr, DecidableEq

/-- The platform's responses for one driver-loop iteration: the search
    outcome, and the insert outcome per retry attempt of `add_video`. -/
structure IterEnv where
  search : SearchResult
  insert : Nat → AttemptResult

/-- Observable actions of the driver loop, in program order: API calls, the
    pacing sleeps, the `BATCH_SIZE` cool-down pause, and the mid-run
    checkpoint write done on a non-quota platform error. -/
inductive Event where
  | searched (q : String)
  | searchSleep
  | insertCall (videoId : String)
  | insertSleep
  | batchPause
  | midCheckpoint (qs : List Song)
  deriving Repr, DecidableEq

/-- The mutable state of `import_csv_to_youtube`'s loop: the dedup set
    `existing_titles`, the `failed_log` list, the success counter
    `added_count`, the event trace, and the current content of the
    `remaining_songs.pickle` checkpoint file. -/
structure DriverState where
  existing : List String
  failedLog : List FailRecord
  addedCount : Nat
  events : List Event
  remFile : Option (List Song)
  deriving Repr, DecidableEq

/-- `BATCH_SIZE = 50` from the source configuration. -/
def BATCH_SIZE : Nat := 50

/-- The batch pause of the source,
    `if added_count % BATCH_SIZE == 0 and added_count > 0: time.sleep(5)`,
    run at the end of every iteration that completes its `try` block. -/
def batchCheck (st : DriverState) : DriverState :=
  if st.addedCount % BATCH_SIZE = 0 ∧ 0 < st.addedCount then
    { st with events := st.events ++ [.batchPause] }
  else st

/-- Result of one driver-loop iteration: either the loop `break`s with the
    given final queue, or it continues with the rest of the queue. -/
inductive StepRes where
  | halt (finalQueue : List Song) (st : DriverState)
  | next (st : DriverState)
  deriving Repr, DecidableEq

/-- One iteration of the `while remaining_songs:` loop (source lines
    182-237), for the just-popped song `s` with `rest` still queued.
    Dedup hit: log `"Already added"` and continue.  Search error: on quota,
    log `"Quota exceeded"`, push `s` back to the front and `break`; otherwise
    log the raw reason, write `[song] + remaining_songs` to the checkpoint
    file and `break`.  Search hit: run `add_video`, then either add the query
    to the dedup set and count the success, or log
    `"Failed to add or quota hit"`.  Search miss: log `"Not found"`.  The
    batch-pause check runs at the end of every non-erroring iteration. -/
def driverStep (e : IterEnv) (s : Song) (rest : List Song)
    (st : DriverState) : StepRes :=
  if s.query ∈ st.existing then
    .next { st with failedLog := st.failedLog ++ [⟨s, "Already added"⟩] }
  else
    match e.search with
    | .httpErr status reason =>
      if isQuota status reason then
        .halt (s :: rest)
          { st with failedLog := st.failedLog ++ [⟨s, "Quota exceeded"⟩],
                    events := st.events ++ [.searched s.query] }
      else
        .halt rest
          { st with failedLog := st.failedLog ++ [⟨s, reason⟩],
                    events := st.events ++
                      [.searched s.query, .midCheckpoint (s :: rest)],
                    remFile := some (s :: rest) }
    | .notFound =>
      .next (batchCheck { st with
        failedLog := st.failedLog ++ [⟨s, "Not found"⟩],
        events := st.events ++ [.searched s.query, .searchSleep] })
    | .found vid =>
      if add_video e.insert then
        .next (batchCheck { st with
          existing := setAdd s.query st.existing,
          addedCount := st.addedCount + 1,
          events := st.events ++
            [.searched s.query, .searchSleep, .insertCall vid, .insertSleep] })
      else
        .next (batchCheck { st with
          failedLog := st.failedLog ++ [⟨s, "Failed to add or quota hit"⟩],
          events := st.events ++
            [.searched s.query, .searchSleep, .insertCall vid, .insertSleep] })

/-- Final state of the driver loop: the in-memory `remaining_songs` when the
    loop ended, the driver state, and whether the loop ended by `break`. -/
structure LoopOut where
  finalQueue : List Song
  st : DriverState
  halted : Bool
  deriving Repr, DecidableEq

/-- The `while remaining_songs:` loop.  `i` numbers the iterations so the
    environment can address them. -/
def driveLoop (env : Nat → IterEnv) : List Song → Nat → DriverState → LoopOut
  | [], _, st => ⟨[], st, false⟩
  | s :: rest, i, st =>
    match driverStep (env i) s rest st with
    | .halt q st2 => ⟨q, st2, true⟩
    | .next st2 => driveLoop env rest (i + 1) st2

/-- Outcome the platform gives to one `playlistItems().list(...).execute()`
    page request in `get_existing_video_titles`: a page of item titles plus
    whether a `nextPageToken` is present, or a raised `HttpError`. -/
inductive PageResult where
  | ok (titles : List String) (hasNext : Bool)
  | httpErr (status : Nat) (reason : String)
  deriving Repr, DecidableEq

/-- The inner `for item in response.get("items", [])` loop: add each title,
    lowercased, to the set. -/
def addTitlesLower (acc : List String) (ts : List String) : List String :=
  ts.foldl (fun a t => setAdd (lowerStr t) a) acc

/-- The pagination loop of `get_existing_video_titles` (source lines 72-100)
    over a transcript of page responses.  Returns the accumulated title set
    and whether pagination completed without a platform error (an exhausted
    transcript is treated like an error: the environment must answer every
    request made).  On an `HttpError` the partial set is returned. -/
def fetchPagesGo : List PageResult → List String → List String × Bool
  | [], acc => (acc, false)
  | .ok ts more :: rest, acc =>
    let acc2 := addTitlesLower acc ts
    if more then fetchPagesGo rest acc2 else (acc2, true)
  | .httpErr _ _ :: _, acc => (acc, false)

/-- `get_existing_video_titles`: if the dedup cache file exists, return it
    unchanged; otherwise page through the playlist, and persist the result
    to the cache only when pagination completed without error.  Returns the
    title set together with the new cache-file content. -/
def get_existing_video_titles (pages : List PageResult)
    (cache : Option (List String)) : List String × Option (List String) :=
  match cache with
  | some c => (c, some c)
  | none =>
    let r := fetchPagesGo pages []
    if r.2 then (r.1, some r.1) else (r.1, cache)

/-- Statement helper: the set of lowercased titles accumulated from the
    successful pages of a pagination transcript, stopping at the first
    error, in traversal order. -/
def collectTitles : List PageResult → List String → List String
  | [], acc => acc
  | .ok ts _ :: rest, acc => collectTitles rest (addTitlesLower acc ts)
  | .httpErr _ _ :: _, acc => acc

/-- A CSV file as `csv.DictReader` sees it: the header row naming the
    columns, and the remaining rows' cells in column order. -/
structure CsvFile where
  header : List String
  rows : List (List String)
  deriving Repr, DecidableEq

/-- Index of the first occurrence of `a` in a list of column names. -/
def idxOf? (a : String) : List String → Option Nat
  | [] => none
  | b :: bs => if b == a then some 0 else (idxOf? a bs).map (· + 1)

/-- `row[field]` under `csv.DictReader`: the cell in the column named
    `field`.  A field absent from the header is a `KeyError`; a row shorter
    than the header yields the restval `None`, which the source's f-string
    renders as the text `"None"`. -/
def rowGet (header row : List String) (field : String) : Except String String :=
  match idxOf? field header with
  | none => .error ("KeyError: " ++ field)
  | some i => .ok (row.getD i "None")

/-- The row loop of `read_csv_songs` (source lines 153-156): for each row,
    in order, build `{"query": (track + " " + artist).lower(), "track": ...,
    "artist": ...}` from `row['Track Name']` and `row['Artists']`. -/
def read_csv_songsGo (header : List String) :
    List (List String) → Except String (List Song)
  | [] => .ok []
  | row :: rest =>
    match rowGet header row "Track Name" with
    | .error e => .error e
    | .ok track =>
      match rowGet header row "Artists" with
      | .error e => .error e
      | .ok artist =>
        match read_csv_songsGo header rest with
        | .error e => .error e
        | .ok songs =>
          .ok ({ track := track, artist := artist,
                 query := lowerStr (track ++ " " ++ artist) } :: songs)

/-- `read_csv_songs`: read the rows into import units in source order,
    raising `KeyError` (modelled as `Except.error`) on the first row if a
    required column is missing from the header. -/
def read_csv_songs (csv : CsvFile) : Except String (List Song) :=
  read_csv_songsGo csv.header csv.rows

/-- The durable files the workflow touches: the dedup cache
    `existing_videos.pickle`, the checkpoint `remaining_songs.pickle`, and
    the failure log `failed_or_skipped.csv`.  `none` means absent. -/
structure FileState where
  cacheFile : Option (List String)
  remainingFile : Option (List Song)
  logFile : Option (List FailRecord)
  deriving Repr, DecidableEq

/-- Result of one run: the loop outcome and the final file state. -/
structure RunOut where
  out : LoopOut
  fs : FileState
  deriving Repr, DecidableEq

/-- The body of `import_csv_to_youtube` once the initial queue is known:
    build the dedup set (possibly writing the cache file), run the loop,
    then write the failure log if non-empty and persist the remaining queue
    if non-empty (source lines 179-252).  Neither file is deleted or
    written when its data is empty. -/
def runDriver (env : Nat → IterEnv) (pages : List PageResult)
    (fs : FileState) (queue : List Song) : RunOut :=
  let ex := get_existing_video_titles pages fs.cacheFile
  let out := driveLoop env queue 0 ⟨ex.1, [], 0, [], fs.remainingFile⟩
  let logOut := if out.st.failedLog = [] then fs.logFile else some out.st.failedLog
  let remOut := if out.finalQueue = [] then out.st.remFile else some out.finalQueue
  ⟨out, ⟨ex.2, remOut, logOut⟩⟩

/-- `import_csv_to_youtube` (source lines 163-254): load the queue from the
    checkpoint file if it exists, ignoring the CSV entirely; otherwise parse
    the CSV (whose `KeyError` propagates); then run the driver. -/
def import_csv_to_youtube (env : Nat → IterEnv) (pages : List PageResult)
    (csv : CsvFile) (fs : FileState) : Except String RunOut :=
  match fs.remainingFile with
  | some q => .ok (runDriver env pages fs q)
  | none =>
    match read_csv_songs csv with
    | .ok songs => .ok (runDriver env pages fs songs)
    | .error e => .error e

/-- Statement helper: number of batch cool-down pauses in an event trace. -/
def countPauses : List Event → Nat
  | [] => 0
  | .batchPause :: es => countPauses es + 1
  | _ :: es => countPauses es

theorem countPauses_append (a b : List Event) :
    countPauses (a ++ b) = countPauses a + countPauses b := by
  induction a with
  | nil => simp [countPauses]
  | cons e es ih =>
    cases e <;> simp [countPauses, ih, Nat.add_assoc, Nat.add_comm, Nat.add_left_comm]

theorem setAdd_mem (x y : String) (s : List String) :
    x ∈ setAdd y s ↔ x = y ∨ x ∈ s := by
  unfold setAdd
  split
  next hys =>
    constructor
    · exact fun h => Or.inr h
    · rintro (rfl | h)
      · exact hys
      · exact h
  next => simp [List.mem_cons]

theorem batchCheck_fields (st : DriverState) :
    (batchCheck st).existing = st.existing ∧
    (batchCheck st).remFile = st.remFile ∧
    (batchCheck st).addedCount = st.addedCount ∧
    (batchCheck st).failedLog = st.failedLog := by
  unfold batchCheck
  split <;> exact ⟨rfl, rfl, rfl, rfl⟩

theorem driverStep_next_remFile {e : IterEnv} {s : Song} {rest : List Song}
    {st st2 : DriverState} (h : driverStep e s rest st = .next st2) :
    st2.remFile = st.remFile := by
  unfold driverStep at h
  split at h
  · cases h; rfl
  · split at h
    · split at h
      · cases h
      · cases h
    · cases h; exact (batchCheck_fields _).2.1
    · split at h
      · cases h; exact (batchCheck_fields _).2.1
      · cases h; exact (batchCheck_fields _).2.1

theorem driverStep_halt_queue {e : IterEnv} {s : Song} {rest q : List Song}
    {st st2 : DriverState} (h : driverStep e s rest st = .halt q st2) :
    q = s :: rest ∨ q = rest := by
  unfold driverStep at h
  split at h
  · cases h
  · split at h
    · split at h
      · cases h; exact Or.inl rfl
      · cases h; exact Or.inr rfl
    · cases h
    · split at h
      · cases h
      · cases h

theorem driverStep_no_err (e : IterEnv) (u : Song) (rest : List Song)
    (st : DriverState) (hne : ∀ a b, e.search ≠ .httpErr a b) :
    ∃ st2, driverStep e u rest st = .next st2 ∧
      st2.remFile = st.remFile ∧
      ∀ x, x ∈ st2.existing → x = u.query ∨ x ∈ st.existing := by
  unfold driverStep
  split
  · exact ⟨_, rfl, rfl, fun x hx => Or.inr hx⟩
  · cases he : e.search with
    | httpErr a b => exact absurd he (hne a b)
    | notFound =>
      refine ⟨_, rfl, (batchCheck_fields _).2.1, fun x hx => Or.inr ?_⟩
      rw [(batchCheck_fields _).1] at hx
      exact hx
    | found vid =>
      cases hv : add_video e.insert
      · refine ⟨_, rfl, (batchCheck_fields _).2.1, fun x hx => Or.inr ?_⟩
        rw [(batchCheck_fields _).1] at hx
        exact hx
      · refine ⟨_, rfl, (batchCheck_fields _).2.1, fun x hx => ?_⟩
        rw [(batchCheck_fields _).1] at hx
        exact (setAdd_mem x u.query st.existing).mp hx

theorem driveLoop_queue_subset (env : Nat → IterEnv) :
    ∀ (qs : List Song) (i : Nat) (st : DriverState) (x : Song),
      x ∈ (driveLoop env qs i st).finalQueue → x ∈ qs := by
  intro qs
  induction qs with
  | nil => intro i st x hx; simp [driveLoop] at hx
  | cons s rest ih =>
    intro i st x hx
    rw [driveLoop] at hx
    cases hstep : driverStep (env i) s rest st with
    | halt q st2 =>
      rw [hstep] at hx
      rcases driverStep_halt_queue hstep with h | h <;> subst h
      · simpa using hx
      · exact List.mem_cons_of_mem _ hx
    | next st2 =>
      rw [hstep] at hx
      exact List.mem_cons_of_mem _ (ih (i + 1) st2 x hx)

theorem driveLoop_no_halt (env : Nat → IterEnv) :
    ∀ (qs : List Song) (i : Nat) (st : DriverState),
      (driveLoop env qs i st).halted = false →
      (driveLoop env qs i st).finalQueue = [] ∧
      (driveLoop env qs i st).st.remFile = st.remFile := by
  intro qs
  induction qs with
  | nil => intro i st _; exact ⟨rfl, rfl⟩
  | cons s rest ih =>
    intro i st h
    rw [driveLoop] at h ⊢
    cases hstep : driverStep (env i) s rest st with
    | halt q st2 => rw [hstep] at h; cases h
    | next st2 =>
      rw [hstep] at h
      have hrec := ih (i + 1) st2 h
      exact ⟨hrec.1, hrec.2.trans (driverStep_next_remFile hstep)⟩

theorem driverStep_search_quota (e : IterEnv) (s : Song) (rest : List Song)
    (st : DriverState) (status : Nat) (reason : String)
    (hex : s.query ∉ st.existing)
    (he : e.search = .httpErr status reason)
    (hq : isQuota status reason = true) :
    driverStep e s rest st = .halt (s :: rest)
      { st with failedLog := st.failedLog ++ [⟨s, "Quota exceeded"⟩],
                events := st.events ++ [.searched s.query] } := by
  unfold driverStep
  rw [if_neg hex, he]
  simp only [hq, if_true]

theorem driverStep_search_err (e : IterEnv) (s : Song) (rest : List Song)
    (st : DriverState) (status : Nat) (reason : String)
    (hex : s.query ∉ st.existing)
    (he : e.search = .httpErr status reason)
    (hnq : isQuota status reason = false) :
    driverStep e s rest st = .halt rest
      { st with failedLog := st.failedLog ++ [⟨s, reason⟩],
                events := st.events ++
                  [.searched s.query, .midCheckpoint (s :: rest)],
                remFile := some (s :: rest) } := by
  unfold driverStep
  rw [if_neg hex, he]
  simp only [hnq, Bool.false_eq_true, if_false]

theorem driverStep_notFound (e : IterEnv) (s : Song) (rest : List Song)
    (st : DriverState) (hex : s.query ∉ st.existing)
    (he : e.search = .notFound) :
    driverStep e s rest st = .next (batchCheck { st with
      failedLog := st.failedLog ++ [⟨s, "Not found"⟩],
      events := st.events ++ [.searched s.query, .searchSleep] }) := by
  unfold driverStep
  rw [if_neg hex, he]

theorem driverStep_found_ok (e : IterEnv) (s : Song) (rest : List Song)
    (st : DriverState) (vid : String) (hex : s.query ∉ st.existing)
    (he : e.search = .found vid) (hv : add_video e.insert = true) :
    driverStep e s rest st = .next (batchCheck { st with
      existing := setAdd s.query st.existing,
      addedCount := st.addedCount + 1,
      events := st.events ++
        [.searched s.query, .searchSleep, .insertCall vid, .insertSleep] }) := by
  unfold driverStep
  rw [if_neg hex, he]
  simp only [hv, if_true]

theorem driverStep_found_fail (e : IterEnv) (s : Song) (rest : List Song)
    (st : DriverState) (vid : String) (hex : s.query ∉ st.existing)
    (he : e.search = .found vid) (hv : add_video e.insert = false) :
    driverStep e s rest st = .next (batchCheck { st with
      failedLog := st.failedLog ++ [⟨s, "Failed to add or quota hit"⟩],
      events := st.events ++
        [.searched s.query, .searchSleep, .insertCall vid, .insertSleep] }) := by
  unfold driverStep
  rw [if_neg hex, he]
  simp only [hv, Bool.false_eq_true, if_false]

theorem driveLoop_reach_quota (env : Nat → IterEnv) (s : Song) (qs₂ : List Song)
    (status : Nat) (reason : String) (hq : isQuota status reason = true) :
    ∀ (qs₁ : List Song) (i : Nat) (st : DriverState),
      (∀ j, j < qs₁.length → ∀ a b, (env (i + j)).search ≠ .httpErr a b) →
      (env (i + qs₁.length)).search = .httpErr status reason →
      s.query ∉ st.existing →
      (∀ u, u ∈ qs₁ → u.query ≠ s.query) →
      (driveLoop env (qs₁ ++ s :: qs₂) i st).finalQueue = s :: qs₂ ∧
      (driveLoop env (qs₁ ++ s :: qs₂) i st).halted = true := by
  intro qs₁
  induction qs₁ with
  | nil =>
    intro i st _ henv hex _
    rw [List.nil_append, driveLoop,
      driverStep_search_quota (env i) s qs₂ st status reason hex
        (by simpa using henv) hq]
    exact ⟨rfl, rfl⟩
  | cons u qs₁ ih =>
    intro i st hne henv hex hqs
    obtain ⟨st2, hstep, _, hsub⟩ :=
      driverStep_no_err (env i) u (qs₁ ++ s :: qs₂) st
        (hne 0 (by simp))
    rw [List.cons_append, driveLoop, hstep]
    apply ih (i + 1) st2
    · intro j hj a b
      have harith : i + 1 + j = i + (j + 1) := by omega
      rw [harith]
      exact hne (j + 1) (by simpa using Nat.succ_lt_succ hj) a b
    · have harith : i + 1 + qs₁.length = i + (u :: qs₁).length := by
        simp; omega
      rw [harith]
      exact henv
    · intro hmem
      rcases hsub _ hmem with h | h
      · exact hqs u (List.mem_cons_self u qs₁) h.symm
      · exact hex h
    · intro v hv
      exact hqs v (List.mem_cons_of_mem u hv)

theorem fetchPagesGo_ok_prefix (rest : List PageResult) :
    ∀ (pre : List PageResult) (acc : List String),
      (∀ p ∈ pre, ∃ ts, p = .ok ts true) →
      fetchPagesGo (pre ++ rest) acc = fetchPagesGo rest (collectTitles pre acc) := by
  intro pre
  induction pre with
  | nil => intro acc _; rfl
  | cons p ps ih =>
    intro acc hpre
    obtain ⟨ts, rfl⟩ := hpre p (List.mem_cons_self p ps)
    rw [List.cons_append]
    show fetchPagesGo (ps ++ rest) (addTitlesLower acc ts) = _
    rw [ih (addTitlesLower acc ts) (fun q hq => hpre q (List.mem_cons_of_mem _ hq))]
    rfl

/-- C3: if a unit's search query is already in the dedup index at the moment
    it is dequeued, the iteration is exactly the continuation on the rest of
    the queue with only an `"Already added"` failure record appended — so no
    search call, no insert call, no sleep and no state change happen for the
    unit — and the unit is permanently consumed: it can never appear in the
    final (hence persisted) queue unless it occurs again later in the queue. -/
theorem dedup_hit_consumed (env : Nat → IterEnv) (u : Song) (rest : List Song)
    (i : Nat) (st : DriverState) (h : u.query ∈ st.existing) :
    driveLoop env (u :: rest) i st =
      driveLoop env rest (i + 1)
        { st with failedLog := st.failedLog ++ [⟨u, "Already added"⟩] } ∧
    (u ∉ rest → u ∉ (driveLoop env (u :: rest) i st).finalQueue) := by
  have hstep : driverStep (env i) u rest st =
      .next { st with failedLog := st.failedLog ++ [⟨u, "Already added"⟩] } := by
    unfold driverStep
    rw [if_pos h]
  constructor
  · rw [driveLoop, hstep]
  · intro hnr hmem
    rw [driveLoop, hstep] at hmem
    exact hnr (driveLoop_queue_subset env rest (i + 1) _ u hmem)

/-- Witness for C3 at a concrete input: a one-song queue whose query is
    already in the dedup set. -/
theorem dedup_hit_consumed_witness :
    (Song.mk "t" "a" "q").query ∈ ["q"] ∧
    (driveLoop (fun _ => ⟨.notFound, fun _ => .ok⟩) [Song.mk "t" "a" "q"] 0
        ⟨["q"], [], 0, [], none⟩ =
      driveLoop (fun _ => ⟨.notFound, fun _ => .ok⟩) [] (0 + 1)
        { (⟨["q"], [], 0, [], none⟩ : DriverState) with
          failedLog := [] ++ [⟨Song.mk "t" "a" "q", "Already added"⟩] } ∧
     (Song.mk "t" "a" "q" ∉ ([] : List Song) →
      Song.mk "t" "a" "q" ∉
        (driveLoop (fun _ => ⟨.notFound, fun _ => .ok⟩) [Song.mk "t" "a" "q"] 0
          ⟨["q"], [], 0, [], none⟩).finalQueue)) :=
  ⟨by decide,
   dedup_hit_consumed (fun _ => ⟨.notFound, fun _ => .ok⟩) (Song.mk "t" "a" "q")
     [] 0 ⟨["q"], [], 0, [], none⟩ (by decide)⟩

/-- C4: with an existing checkpoint, the run's initial queue is the
    checkpoint contents and the source CSV is never read (the result is
    identical for every CSV file); only without a checkpoint is the queue
    loaded from the CSV via the loader. -/
theorem checkpoint_precedence (env : Nat → IterEnv) (pages : List PageResult)
    (csv : CsvFile) (fs : FileState) (q : List Song)
    (h : fs.remainingFile = some q) :
    import_csv_to_youtube env pages csv fs = .ok (runDriver env pages fs q) ∧
    (∀ csv', import_csv_to_youtube env pages csv' fs =
      import_csv_to_youtube env pages csv fs) ∧
    (∀ fs' songs, fs'.remainingFile = none → read_csv_songs csv = .ok songs →
      import_csv_to_youtube env pages csv fs' =
        .ok (runDriver env pages fs' songs)) := by
  refine ⟨?_, ?_, ?_⟩
  · unfold import_csv_to_youtube
    rw [h]
  · intro csv'
    unfold import_csv_to_youtube
    rw [h]
  · intro fs' songs h1 h2
    unfold import_csv_to_youtube
    rw [h1, h2]

/-- Witness for C4 at a concrete input: a checkpoint of one song beats a
    CSV with a different song. -/
theorem checkpoint_precedence_witness :
    (FileState.mk none (some [Song.mk "t" "a" "t a"]) none).remainingFile =
      some [Song.mk "t" "a" "t a"] ∧
    import_csv_to_youtube (fun _ => ⟨.notFound, fun _ => .ok⟩) []
        ⟨["Track Name", "Artists"], [["x", "y"]]⟩
        ⟨none, some [Song.mk "t" "a" "t a"], none⟩ =
      .ok (runDriver (fun _ => ⟨.notFound, fun _ => .ok⟩) []
        ⟨none, some [Song.mk "t" "a" "t a"], none⟩ [Song.mk "t" "a" "t a"]) :=
  ⟨rfl,
   (checkpoint_precedence (fun _ => ⟨.notFound, fun _ => .ok⟩) []
     ⟨["Track Name", "Artists"], [["x", "y"]]⟩
     ⟨none, some [Song.mk "t" "a" "t a"], none⟩ [Song.mk "t" "a" "t a"] rfl).1⟩

/-- C10: a run that loads a checkpoint and retires every loaded unit — the
    loop ends without a `break`, hence with an empty in-memory queue — leaves
    the checkpoint file exactly as it was (never overwritten, never deleted),
    so every subsequent run reloads the same already-completed queue instead
    of reading the source CSV. -/
theorem stale_checkpoint_persists (env : Nat → IterEnv)
    (pages : List PageResult) (fs : FileState) (q : List Song)
    (h : fs.remainingFile = some q)
    (hh : (runDriver env pages fs q).out.halted = false) :
    (runDriver env pages fs q).out.finalQueue = [] ∧
    (runDriver env pages fs q).fs.remainingFile = some q ∧
    (∀ env' pages' csv',
      import_csv_to_youtube env' pages' csv' (runDriver env pages fs q).fs =
        .ok (runDriver env' pages' (runDriver env pages fs q).fs q)) := by
  have hh' : (driveLoop env q 0
      ⟨(get_existing_video_titles pages fs.cacheFile).1, [], 0, [],
        fs.remainingFile⟩).halted = false := hh
  have hnh := driveLoop_no_halt env q 0
      ⟨(get_existing_video_titles pages fs.cacheFile).1, [], 0, [],
        fs.remainingFile⟩ hh'
  have h2 : (runDriver env pages fs q).fs.remainingFile = some q := by
    show (if (driveLoop env q 0
        ⟨(get_existing_video_titles pages fs.cacheFile).1, [], 0, [],
          fs.remainingFile⟩).finalQueue = [] then _ else _) = some q
    rw [if_pos hnh.1, hnh.2]
    exact h
  refine ⟨hnh.1, h2, fun env' pages' csv' => ?_⟩
  unfold import_csv_to_youtube
  rw [h2]

/-- Witness for C10 at a concrete input: a checkpoint of one already-added
    song is fully processed, and the checkpoint file survives untouched. -/
theorem stale_checkpoint_persists_witness :
    (FileState.mk (some ["t a"]) (some [Song.mk "t" "a" "t a"]) none).remainingFile
        = some [Song.mk "t" "a" "t a"] ∧
    (runDriver (fun _ => ⟨.notFound, fun _ => .ok⟩) []
        ⟨some ["t a"], some [Song.mk "t" "a" "t a"], none⟩
        [Song.mk "t" "a" "t a"]).out.halted = false ∧
    ((runDriver (fun _ => ⟨.notFound, fun _ => .ok⟩) []
        ⟨some ["t a"], some [Song.mk "t" "a" "t a"], none⟩
        [Song.mk "t" "a" "t a"]).out.finalQueue = [] ∧
     (runDriver (fun _ => ⟨.notFound, fun _ => .ok⟩) []
        ⟨some ["t a"], some [Song.mk "t" "a" "t a"], none⟩
        [Song.mk "t" "a" "t a"]).fs.remainingFile = some [Song.mk "t" "a" "t a"] ∧
     (∀ env' pages' csv',
       import_csv_to_youtube env' pages' csv'
           (runDriver (fun _ => ⟨.notFound, fun _ => .ok⟩) []
             ⟨some ["t a"], some [Song.mk "t" "a" "t a"], none⟩
             [Song.mk "t" "a" "t a"]).fs =
         .ok (runDriver env' pages'
           (runDriver (fun _ => ⟨.notFound, fun _ => .ok⟩) []
             ⟨some ["t a"], some [Song.mk "t" "a" "t a"], none⟩
             [Song.mk "t" "a" "t a"]).fs [Song.mk "t" "a" "t a"]))) :=
  ⟨rfl, by decide,
   stale_checkpoint_persists (fun _ => ⟨.notFound, fun _ => .ok⟩) []
     ⟨some ["t a"], some [Song.mk "t" "a" "t a"], none⟩
     [Song.mk "t" "a" "t a"] rfl (by decide)⟩

/-- C7: building the dedup index without a cache is degraded-but-available:
    a terminal platform error mid-pagination makes it return the partial set
    of lowercased titles accumulated from the pages fetched so far, with no
    cache write; when pagination completes (a page without `nextPageToken`),
    the full set is persisted to the cache and returned. -/
theorem dedup_build_degraded :
    (∀ (pre : List PageResult) (status : Nat) (reason : String),
      (∀ p ∈ pre, ∃ ts, p = .ok ts true) →
      get_existing_video_titles (pre ++ [.httpErr status reason]) none =
        (collectTitles pre [], none)) ∧
    (∀ (pre : List PageResult) (ts : List String),
      (∀ p ∈ pre, ∃ ts2, p = .ok ts2 true) →
      get_existing_video_titles (pre ++ [.ok ts false]) none =
        (addTitlesLower (collectTitles pre []) ts,
         some (addTitlesLower (collectTitles pre []) ts))) := by
  constructor
  · intro pre status reason hpre
    have hf := fetchPagesGo_ok_prefix [PageResult.httpErr status reason] pre [] hpre
    unfold get_existing_video_titles
    rw [hf]
    rfl
  · intro pre ts hpre
    have hf := fetchPagesGo_ok_prefix [PageResult.ok ts false] pre [] hpre
    unfold get_existing_video_titles
    rw [hf]
    rfl

/-- Witness for C7 at concrete inputs: one successful page then a quota
    error yields the partial set without a cache write; one final page
    yields the full set with a cache write. -/
theorem dedup_build_degraded_witness :
    ((∀ p ∈ [PageResult.ok ["T"] true], ∃ ts, p = .ok ts true) ∧
     get_existing_video_titles
        [PageResult.ok ["T"] true, PageResult.httpErr 403 "quotaExceeded"] none =
      (collectTitles [PageResult.ok ["T"] true] [], none)) ∧
    ((∀ p ∈ ([] : List PageResult), ∃ ts2, p = .ok ts2 true) ∧
     get_existing_video_titles [PageResult.ok ["T"] false] none =
      (addTitlesLower (collectTitles [] []) ["T"],
       some (addTitlesLower (collectTitles [] []) ["T"]))) :=
  ⟨⟨by simp, dedup_build_degraded.1 [PageResult.ok ["T"] true] 403
      "quotaExceeded" (by simp)⟩,
   ⟨by simp, dedup_build_degraded.2 [] ["T"] (by simp)⟩⟩

theorem add_videoGo_step0 (att : Nat → AttemptResult) :
    add_videoGo att 3 0 3 =
      match att 0 with
      | .ok => (true, 1, 0)
      | .httpErr status reason =>
        if isQuota status reason then (false, 1, 0)
        else ((add_videoGo att 3 1 2).1, (add_videoGo att 3 1 2).2.1 + 1,
              (add_videoGo att 3 1 2).2.2 + 1) := rfl

theorem add_videoGo_step1 (att : Nat → AttemptResult) :
    add_videoGo att 3 1 2 =
      match att 1 with
      | .ok => (true, 1, 0)
      | .httpErr status reason =>
        if isQuota status reason then (false, 1, 0)
        else ((add_videoGo att 3 2 1).1, (add_videoGo att 3 2 1).2.1 + 1,
              (add_videoGo att 3 2 1).2.2 + 1) := rfl

theorem add_videoGo_step2 (att : Nat → AttemptResult) :
    add_videoGo att 3 2 1 =
      match att 2 with
      | .ok => (true, 1, 0)
      | .httpErr status reason =>
        if isQuota status reason then (false, 1, 0) else (false, 1, 0) := rfl

/-- Characterization of `add_video`'s three-attempt retry loop as a decision
    cascade over the platform's per-attempt answers. -/
theorem add_videoRun_cases (att : Nat → AttemptResult) :
    add_videoRun att =
      match att 0 with
      | .ok => (true, 1, 0)
      | .httpErr s0 r0 =>
        if isQuota s0 r0 then (false, 1, 0)
        else
          match att 1 with
          | .ok => (true, 2, 1)
          | .httpErr s1 r1 =>
            if isQuota s1 r1 then (false, 2, 1)
            else
              match att 2 with
              | .ok => (true, 3, 2)
              | .httpErr _ _ => (false, 3, 2) := by
  show add_videoGo att 3 0 3 = _
  rw [add_videoGo_step0, add_videoGo_step1, add_videoGo_step2]
  cases h0 : att 0 with
  | ok => rfl
  | httpErr s0 r0 =>
    cases hq0 : isQuota s0 r0
    · cases h1 : att 1 with
      | ok => simp [hq0]
      | httpErr s1 r1 =>
        cases hq1 : isQuota s1 r1
        · cases h2 : att 2 with
          | ok => simp [hq0, hq1]
          | httpErr s2 r2 => cases hq2 : isQuota s2 r2 <;> simp [hq0, hq1, hq2]
        · simp [hq0, hq1]
    · simp [hq0]

/-- C6: `add_video` makes at most 3 insert attempts (and at least one), with
    exactly one fixed cooldown between consecutive attempts and none after
    the last; a recognized quota-exhaustion response makes the current
    attempt the final one, returning failure immediately with no further
    attempt and no cooldown; success on any attempt returns success at once;
    and three failed non-quota attempts return failure. -/
theorem add_video_retry_policy (att : Nat → AttemptResult) :
    (1 ≤ (add_videoRun att).2.1 ∧ (add_videoRun att).2.1 ≤ 3 ∧
     (add_videoRun att).2.2 = (add_videoRun att).2.1 - 1) ∧
    (∀ k, k < 3 →
      (∀ j, j < k → ∃ a b, att j = .httpErr a b ∧ isQuota a b = false) →
      ((∀ a b, att k = .httpErr a b → isQuota a b = true →
          add_videoRun att = (false, k + 1, k)) ∧
       (att k = .ok → add_videoRun att = (true, k + 1, k)))) ∧
    ((∀ j, j < 3 → ∃ a b, att j = .httpErr a b ∧ isQuota a b = false) →
      add_videoRun att = (false, 3, 2)) := by
  rw [add_videoRun_cases att]
  refine ⟨?_, ?_, ?_⟩
  · cases h0 : att 0 with
    | ok => simp
    | httpErr s0 r0 =>
      cases hq0 : isQuota s0 r0
      · cases h1 : att 1 with
        | ok => simp [hq0]
        | httpErr s1 r1 =>
          cases hq1 : isQuota s1 r1
          · cases h2 : att 2 with
            | ok => simp [hq0, hq1]
            | httpErr s2 r2 => simp [hq0, hq1]
          · simp [hq0, hq1]
      · simp [hq0]
  · intro k hk hjs
    interval_cases k
    · constructor
      · intro a b hab hq
        simp [hab, hq]
      · intro hok
        simp [hok]
    · obtain ⟨a0, b0, hab0, hq0⟩ := hjs 0 (by omega)
      constructor
      · intro a b hab hq
        simp [hab0, hq0, hab, hq]
      · intro hok
        simp [hab0, hq0, hok]
    · obtain ⟨a0, b0, hab0, hq0⟩ := hjs 0 (by omega)
      obtain ⟨a1, b1, hab1, hq1⟩ := hjs 1 (by omega)
      constructor
      · intro a b hab hq
        simp [hab0, hq0, hab1, hq1, hab, hq]
      · intro hok
        simp [hab0, hq0, hab1, hq1, hok]
  · intro hjs
    obtain ⟨a0, b0, hab0, hq0⟩ := hjs 0 (by omega)
    obtain ⟨a1, b1, hab1, hq1⟩ := hjs 1 (by omega)
    obtain ⟨a2, b2, hab2, hq2⟩ := hjs 2 (by omega)
    simp [hab0, hq0, hab1, hq1, hab2]

/-- Witness for C6 at a concrete input: attempt 0 fails for a non-quota
    reason, attempt 1 succeeds — two attempts, one cooldown, success. -/
theorem add_video_retry_policy_witness :
    ((fun j => if j = 0 then AttemptResult.httpErr 500 "backendError"
               else AttemptResult.ok) 1 = AttemptResult.ok) ∧
    add_videoRun (fun j => if j = 0 then AttemptResult.httpErr 500 "backendError"
                           else AttemptResult.ok) = (true, 1 + 1, 1) :=
  ⟨rfl,
   (((add_video_retry_policy
       (fun j => if j = 0 then AttemptResult.httpErr 500 "backendError"
                 else AttemptResult.ok)).2.1 1 (by omega)
     (by intro j hj
         interval_cases j
         exact ⟨500, "backendError", rfl, by decide⟩)).2 rfl)⟩

/-- Environment for the three-unit scenario: iteration 2's search finds a
    video and its insert succeeds; other searches find nothing (iteration 0
    is a dedup skip and consults no environment). -/
def envScenario : Nat → IterEnv := fun i =>
  if i = 2 then ⟨.found "v3", fun _ => .ok⟩ else ⟨.notFound, fun _ => .ok⟩

/-- Source CSV for the three-unit scenario. -/
def csvScenario : CsvFile :=
  ⟨["Track Name", "Artists"], [["t1", "a1"], ["t2", "a2"], ["t3", "a3"]]⟩

/-- Initial files for the three-unit scenario: a dedup cache already holding
    unit 1's query, no checkpoint, no failure log. -/
def fsScenario : FileState := ⟨some ["t1 a1"], none, none⟩

/-- C8: in the three-unit scenario — unit 1's query already in the dedup
    set, unit 2's search finds no match, unit 3's search and insert succeed —
    the run ends with an empty queue, the dedup index gains exactly unit 3's
    query, the failure log holds exactly the two records `Already added` and
    `Not found` in that order, and no checkpoint file is written (the
    checkpoint stays absent). -/
theorem scenario_three_units :
    import_csv_to_youtube envScenario [] csvScenario fsScenario =
      .ok ⟨⟨[],
        ⟨["t3 a3", "t1 a1"],
         [⟨⟨"t1", "a1", "t1 a1"⟩, "Already added"⟩,
          ⟨⟨"t2", "a2", "t2 a2"⟩, "Not found"⟩],
         1,
         [.searched "t2 a2", .searchSleep, .searched "t3 a3", .searchSleep,
          .insertCall "v3", .insertSleep],
         none⟩,
        false⟩,
       ⟨some ["t1 a1"], none,
        some [⟨⟨"t1", "a1", "t1 a1"⟩, "Already added"⟩,
              ⟨⟨"t2", "a2", "t2 a2"⟩, "Not found"⟩]⟩⟩ := by
  rfl

/-- Environment in which the first unit's search raises a non-quota
    platform error (HTTP 500). -/
def envSearchErr : Nat → IterEnv :=
  fun _ => ⟨.httpErr 500 "backendError", fun _ => .ok⟩

/-- Initial files for the search-error run: empty dedup cache, a checkpoint
    holding two pending units, no failure log. -/
def fsSearchErr : FileState :=
  ⟨some [], some [⟨"t1", "a1", "t1 a1"⟩, ⟨"t2", "a2", "t2 a2"⟩], none⟩

/-- C2 (code bug): when unit 1's search raises a non-quota platform error,
    the loop does checkpoint `[song] + remaining_songs` — the mid-run
    checkpoint file content is `[unit1, unit2]` — but the end-of-run
    `if remaining_songs:` save then overwrites that file with the in-memory
    rest `[unit2]`, silently dropping the triggering unit from the persisted
    queue, contrary to the re-enqueue-at-front contract the mid-run write
    itself implements. -/
theorem search_error_checkpoint_clobbered :
    (runDriver envSearchErr [] fsSearchErr
        [⟨"t1", "a1", "t1 a1"⟩, ⟨"t2", "a2", "t2 a2"⟩]).out.st.remFile =
      some [⟨"t1", "a1", "t1 a1"⟩, ⟨"t2", "a2", "t2 a2"⟩] ∧
    (runDriver envSearchErr [] fsSearchErr
        [⟨"t1", "a1", "t1 a1"⟩, ⟨"t2", "a2", "t2 a2"⟩]).out.halted = true ∧
    (runDriver envSearchErr [] fsSearchErr
        [⟨"t1", "a1", "t1 a1"⟩, ⟨"t2", "a2", "t2 a2"⟩]).out.st.failedLog =
      [⟨⟨"t1", "a1", "t1 a1"⟩, "backendError"⟩] ∧
    (runDriver envSearchErr [] fsSearchErr
        [⟨"t1", "a1", "t1 a1"⟩, ⟨"t2", "a2", "t2 a2"⟩]).fs.remainingFile =
      some [⟨"t2", "a2", "t2 a2"⟩] := by
  decide

/-- Environment in which unit 1's search finds a video but the insert's
    first attempt reports quota exhaustion; iteration 1's search finds
    nothing. -/
def envInsertQuota : Nat → IterEnv := fun i =>
  if i = 0 then ⟨.found "v1", fun _ => .httpErr 403 "quotaExceeded"⟩
  else ⟨.notFound, fun _ => .ok⟩

/-- Counterexample to C1: quota exhaustion reported during the INSERT call
    does not stop the driver loop.  In a fresh two-unit run, unit 1's insert
    attempt is a recognized quota error, yet the run records it as
    `"Failed to add or quota hit"`, goes on to process unit 2 (whose
    `"Not found"` record appears after it in the log), ends with an empty
    queue, no `break`, and writes no checkpoint — the triggering unit is not
    the first element of any persisted queue. -/
theorem quota_halt_counterexample :
    isQuota 403 "quotaExceeded" = true ∧
    import_csv_to_youtube envInsertQuota []
        ⟨["Track Name", "Artists"], [["t1", "a1"], ["t2", "a2"]]⟩
        ⟨some [], none, none⟩ =
      .ok ⟨⟨[],
        ⟨[],
         [⟨⟨"t1", "a1", "t1 a1"⟩, "Failed to add or quota hit"⟩,
          ⟨⟨"t2", "a2", "t2 a2"⟩, "Not found"⟩],
         0,
         [.searched "t1 a1", .searchSleep, .insertCall "v1", .insertSleep,
          .searched "t2 a2", .searchSleep],
         none⟩,
        false⟩,
       ⟨some [], none,
        some [⟨⟨"t1", "a1", "t1 a1"⟩, "Failed to add or quota hit"⟩,
              ⟨⟨"t2", "a2", "t2 a2"⟩, "Not found"⟩]⟩⟩ :=
  ⟨by decide, rfl⟩

/-- C1 (amended): only quota exhaustion during the SEARCH call stops the
    driver loop: if the loop reaches a unit `s` (no earlier iteration's
    search errored and `s`'s query was neither cached nor added by an earlier
    unit) and `s`'s search reports quota exhaustion, the run halts there, the
    remaining in-memory queue is `s` followed by the untouched later units in
    original order, and exactly that queue is persisted, so `s` is the first
    element of the checkpoint and no unit after it was processed.  Quota
    exhaustion during the INSERT call instead records the unit as
    `"Failed to add or quota hit"` and continues with the rest of the
    queue. -/
theorem quota_halt_search_only :
    (∀ (env : Nat → IterEnv) (pages : List PageResult) (csv : CsvFile)
       (fs : FileState) (c : List String) (qs₁ qs₂ : List Song) (s : Song)
       (status : Nat) (reason : String),
      fs.cacheFile = some c →
      fs.remainingFile = some (qs₁ ++ s :: qs₂) →
      (∀ j, j < qs₁.length → ∀ a b, (env j).search ≠ .httpErr a b) →
      (env qs₁.length).search = .httpErr status reason →
      isQuota status reason = true →
      s.query ∉ c →
      (∀ u, u ∈ qs₁ → u.query ≠ s.query) →
      import_csv_to_youtube env pages csv fs =
        .ok (runDriver env pages fs (qs₁ ++ s :: qs₂)) ∧
      (runDriver env pages fs (qs₁ ++ s :: qs₂)).out.halted = true ∧
      (runDriver env pages fs (qs₁ ++ s :: qs₂)).out.finalQueue = s :: qs₂ ∧
      (runDriver env pages fs (qs₁ ++ s :: qs₂)).fs.remainingFile =
        some (s :: qs₂)) ∧
    (∀ (e : IterEnv) (s : Song) (rest : List Song) (st : DriverState)
       (vid : String) (a : Nat) (b : String),
      s.query ∉ st.existing →
      e.search = .found vid →
      e.insert 0 = .httpErr a b →
      isQuota a b = true →
      driverStep e s rest st = .next (batchCheck { st with
        failedLog := st.failedLog ++ [⟨s, "Failed to add or quota hit"⟩],
        events := st.events ++
          [.searched s.query, .searchSleep, .insertCall vid,
           .insertSleep] })) := by
  constructor
  · intro env pages csv fs c qs₁ qs₂ s status reason hc hr hne henv hq hex hqs
    have hreach := driveLoop_reach_quota env s qs₂ status reason hq qs₁ 0
      ⟨(get_existing_video_titles pages fs.cacheFile).1, [], 0, [],
        fs.remainingFile⟩
      (by intro j hj a b
          rw [Nat.zero_add]
          exact hne j hj a b)
      (by rw [Nat.zero_add]
          exact henv)
      (by rw [show ((⟨(get_existing_video_titles pages fs.cacheFile).1, [], 0,
            [], fs.remainingFile⟩ : DriverState)).existing =
            (get_existing_video_titles pages fs.cacheFile).1 from rfl, hc]
          exact hex)
      hqs
    have h1 : (runDriver env pages fs (qs₁ ++ s :: qs₂)).out.finalQueue =
        s :: qs₂ := hreach.1
    have h2 : (runDriver env pages fs (qs₁ ++ s :: qs₂)).out.halted = true :=
      hreach.2
    have h3 : (runDriver env pages fs (qs₁ ++ s :: qs₂)).fs.remainingFile =
        some (s :: qs₂) := by
      simp only [runDriver]
      rw [hreach.1]
      simp
    refine ⟨?_, h2, h1, h3⟩
    unfold import_csv_to_youtube
    rw [hr]
  · intro e s rest st vid a b hex hsr hins hqab
    have hav : add_video e.insert = false := by
      unfold add_video
      rw [add_videoRun_cases]
      simp [hins, hqab]
    unfold driverStep
    rw [if_neg hex, hsr, hav]
    simp

/-- Witness for C1 (amended) at concrete inputs: a one-unit checkpoint whose
    search hits quota halts with that unit persisted first; a found unit
    whose insert hits quota continues with a failure record. -/
theorem quota_halt_search_only_witness :
    ((FileState.mk (some []) (some ([] ++ Song.mk "t1" "a1" "t1 a1" :: []))
        none).cacheFile = some [] ∧
     ((fun _ => (⟨.httpErr 403 "quotaExceeded", fun _ => .ok⟩ : IterEnv)) 0
        : IterEnv).search = .httpErr 403 "quotaExceeded" ∧
     isQuota 403 "quotaExceeded" = true ∧
     (runDriver (fun _ => ⟨.httpErr 403 "quotaExceeded", fun _ => .ok⟩) []
        ⟨some [], some ([] ++ Song.mk "t1" "a1" "t1 a1" :: []), none⟩
        ([] ++ Song.mk "t1" "a1" "t1 a1" :: [])).fs.remainingFile =
       some (Song.mk "t1" "a1" "t1 a1" :: [])) ∧
    ((⟨.found "v1", fun _ => .httpErr 403 "quotaExceeded"⟩ : IterEnv).insert 0
        = .httpErr 403 "quotaExceeded" ∧
     driverStep ⟨.found "v1", fun _ => .httpErr 403 "quotaExceeded"⟩
        (Song.mk "t1" "a1" "t1 a1") [] ⟨[], [], 0, [], none⟩ =
       .next (batchCheck
         { (⟨[], [], 0, [], none⟩ : DriverState) with
           failedLog := [] ++
             [⟨Song.mk "t1" "a1" "t1 a1", "Failed to add or quota hit"⟩],
           events := [] ++
             [.searched "t1 a1", .searchSleep, .insertCall "v1",
              .insertSleep] })) :=
  ⟨⟨rfl, rfl, by decide,
    (quota_halt_search_only.1
      (fun _ => ⟨.httpErr 403 "quotaExceeded", fun _ => .ok⟩) []
      ⟨[], []⟩ ⟨some [], some ([] ++ Song.mk "t1" "a1" "t1 a1" :: []), none⟩
      [] [] [] (Song.mk "t1" "a1" "t1 a1") 403 "quotaExceeded"
      rfl rfl (by intro j hj a b; simp at hj) rfl (by decide) (by decide)
      (by intro u hu; cases hu)).2.2.2⟩,
   ⟨rfl,
    quota_halt_search_only.2 ⟨.found "v1", fun _ => .httpErr 403 "quotaExceeded"⟩
      (Song.mk "t1" "a1" "t1 a1") [] ⟨[], [], 0, [], none⟩ "v1" 403
      "quotaExceeded" (by decide) rfl rfl (by decide)⟩⟩

/-- Fifty-one units with distinct queries. -/
def songsFiftyOne : List Song :=
  (List.range 51).map fun n => ⟨"t", "a", "q" ++ toString n⟩

/-- Environment in which the first fifty searches find a video whose insert
    succeeds, and the fifty-first search finds nothing. -/
def envFiftyOne : Nat → IterEnv := fun i =>
  if i < 50 then ⟨.found "v", fun _ => .ok⟩ else ⟨.notFound, fun _ => .ok⟩

/-- Initial files for the 51-unit run: empty dedup cache, the 51 units as
    checkpoint, no failure log. -/
def fsFiftyOne : FileState := ⟨some [], some songsFiftyOne, none⟩

/-- Counterexample to C5: a run with exactly 50 cumulative successful
    insertions takes TWO batch cool-down pauses, not one — the check
    `added_count % BATCH_SIZE == 0 and added_count > 0` runs at the end of
    every completed iteration, so after the 50th success the pause fires
    again at the end of the next (non-inserting, `Not found`) iteration
    while the counter still reads 50. -/
theorem batch_pause_counterexample :
    (runDriver envFiftyOne [] fsFiftyOne songsFiftyOne).out.st.addedCount =
      50 ∧
    countPauses (runDriver envFiftyOne [] fsFiftyOne
      songsFiftyOne).out.st.events = 2 := by
  decide

/-- C5 (amended): in every iteration that processes a dedup-missing unit and
    completes its try block (continuing the loop), exactly one batch pause is
    appended iff the success count after the iteration is a positive multiple
    of `BATCH_SIZE` — so exactly one pause follows the 50th successful
    insertion (before the next unit's search) and none occurs at counts 1-49,
    but the pause recurs at the end of each further non-inserting iteration
    while the count stays at a multiple of 50, rather than once per 50
    successes.  Iterations that halt the loop append no pause. -/
theorem batch_pause_condition (e : IterEnv) (s : Song) (rest : List Song)
    (st : DriverState) (hex : s.query ∉ st.existing) :
    (∀ st2, driverStep e s rest st = .next st2 →
      countPauses st2.events =
        countPauses st.events +
          (if st2.addedCount % BATCH_SIZE = 0 ∧ 0 < st2.addedCount then 1
           else 0)) ∧
    (∀ q st2, driverStep e s rest st = .halt q st2 →
      countPauses st2.events = countPauses st.events) := by
  constructor
  · intro st2 h
    cases he : e.search with
    | httpErr a b =>
      cases hq : isQuota a b
      · rw [driverStep_search_err e s rest st a b hex he hq] at h
        cases h
      · rw [driverStep_search_quota e s rest st a b hex he hq] at h
        cases h
    | notFound =>
      rw [driverStep_notFound e s rest st hex he] at h
      cases h
      rw [(batchCheck_fields _).2.2.1]
      unfold batchCheck
      split
      next => simp [countPauses_append, countPauses]
      next => simp [countPauses_append, countPauses]
    | found vid =>
      cases hv : add_video e.insert
      · rw [driverStep_found_fail e s rest st vid hex he hv] at h
        cases h
        rw [(batchCheck_fields _).2.2.1]
        unfold batchCheck
        split
        next => simp [countPauses_append, countPauses]
        next => simp [countPauses_append, countPauses]
      · rw [driverStep_found_ok e s rest st vid hex he hv] at h
        cases h
        rw [(batchCheck_fields _).2.2.1]
        unfold batchCheck
        split
        next => simp [countPauses_append, countPauses]
        next => simp [countPauses_append, countPauses]
  · intro q st2 h
    cases he : e.search with
    | httpErr a b =>
      cases hq : isQuota a b
      · rw [driverStep_search_err e s rest st a b hex he hq] at h
        cases h
        simp [countPauses_append, countPauses]
      · rw [driverStep_search_quota e s rest st a b hex he hq] at h
        cases h
        simp [countPauses_append, countPauses]
    | notFound =>
      rw [driverStep_notFound e s rest st hex he] at h
      cases h
    | found vid =>
      cases hv : add_video e.insert
      · rw [driverStep_found_fail e s rest st vid hex he hv] at h
        cases h
      · rw [driverStep_found_ok e s rest st vid hex he hv] at h
        cases h

/-- Witness for C5 (amended) at a concrete input: a `Not found` iteration
    entered with a success count of 50 appends one more batch pause. -/
theorem batch_pause_condition_witness :
    (("q" : String) ∉ (["x"] : List String)) ∧
    countPauses (batchCheck ⟨["x"], [⟨⟨"t", "a", "q"⟩, "Not found"⟩], 50,
        [.searched "q", .searchSleep], none⟩).events =
      countPauses ([] : List Event) +
        (if (batchCheck ⟨["x"], [⟨⟨"t", "a", "q"⟩, "Not found"⟩], 50,
              [.searched "q", .searchSleep], none⟩).addedCount % BATCH_SIZE = 0 ∧
            0 < (batchCheck ⟨["x"], [⟨⟨"t", "a", "q"⟩, "Not found"⟩], 50,
              [.searched "q", .searchSleep], none⟩).addedCount then 1 else 0) :=
  ⟨by decide,
   (batch_pause_condition ⟨.notFound, fun _ => .ok⟩ ⟨"t", "a", "q"⟩ []
     ⟨["x"], [], 50, [], none⟩ (by decide)).1
     (batchCheck ⟨["x"], [⟨⟨"t", "a", "q"⟩, "Not found"⟩], 50,
       [.searched "q", .searchSleep], none⟩) rfl⟩

theorem idxOf?_eq_none_of_nmem (a : String) :
    ∀ l : List String, a ∉ l → idxOf? a l = none := by
  intro l
  induction l with
  | nil => intro _; rfl
  | cons b bs ih =>
    intro h
    have hne : b ≠ a := by
      intro hba
      subst hba
      exact h (List.mem_cons_self b bs)
    unfold idxOf?
    rw [if_neg (by simpa using hne), ih (fun hm => h (List.mem_cons_of_mem b hm))]
    rfl

/-- Counterexample to C9: with a header missing both required columns but an
    empty record set, the loader succeeds with an empty unit list instead of
    failing — the `KeyError` is only raised while processing a row, and with
    zero rows the loop body never runs. -/
theorem loader_counterexample :
    read_csv_songs ⟨["Foo"], []⟩ = .ok [] ∧
    ("Track Name" : String) ∉ (["Foo"] : List String) ∧
    ("Artists" : String) ∉ (["Foo"] : List String) :=
  ⟨rfl, by decide, by decide⟩

/-- C9 (amended): the loader fails with a `KeyError` on the FIRST record it
    processes when a required column (`Track Name` checked first, then
    `Artists`) is absent from the header — so a record set with at least one
    record fails, while an empty record set yields an empty unit list without
    failing; for a header containing both columns it produces exactly one
    unit per record, in source order, with `searchQuery` equal to
    `lowercase(track + " " + artist)`. -/
theorem loader_contract (header : List String) :
    (∀ row rows, "Track Name" ∉ header →
      read_csv_songs ⟨header, row :: rows⟩ =
        .error ("KeyError: " ++ "Track Name")) ∧
    (∀ row rows ti, idxOf? "Track Name" header = some ti →
      "Artists" ∉ header →
      read_csv_songs ⟨header, row :: rows⟩ =
        .error ("KeyError: " ++ "Artists")) ∧
    (∀ ti ai, idxOf? "Track Name" header = some ti →
      idxOf? "Artists" header = some ai →
      ∀ rows, read_csv_songs ⟨header, rows⟩ =
        .ok (rows.map fun row =>
          ⟨row.getD ti "None", row.getD ai "None",
           lowerStr (row.getD ti "None" ++ " " ++ row.getD ai "None")⟩)) := by
  refine ⟨?_, ?_, ?_⟩
  · intro row rows hmem
    have hidx : idxOf? "Track Name" header = none :=
      idxOf?_eq_none_of_nmem "Track Name" header hmem
    show read_csv_songsGo header (row :: rows) = _
    unfold read_csv_songsGo
    simp [rowGet, hidx]
  · intro row rows ti hti hmem
    have hidx : idxOf? "Artists" header = none :=
      idxOf?_eq_none_of_nmem "Artists" header hmem
    show read_csv_songsGo header (row :: rows) = _
    unfold read_csv_songsGo
    simp [rowGet, hti, hidx]
  · intro ti ai hti hai rows
    show read_csv_songsGo header rows = _
    induction rows with
    | nil => rfl
    | cons row rest ih =>
      unfold read_csv_songsGo
      simp [rowGet, hti, hai, ih]

/-- Witness for C9 (amended) at a concrete input: the well-formed header
    with one record loads into one unit with the lowercased concatenated
    query. -/
theorem loader_contract_witness :
    idxOf? "Track Name" ["Track Name", "Artists"] = some 0 ∧
    idxOf? "Artists" ["Track Name", "Artists"] = some 1 ∧
    read_csv_songs ⟨["Track Name", "Artists"], [["A", "B"]]⟩ =
      .ok ([["A", "B"]].map fun row =>
        ⟨row.getD 0 "None", row.getD 1 "None",
         lowerStr (row.getD 0 "None" ++ " " ++ row.getD 1 "None")⟩) :=
  ⟨rfl, rfl,
   (loader_contract ["Track Name", "Artists"]).2.2 0 1 rfl rfl [["A", "B"]]⟩

end CsvImport
